import Mathlib

/-
  Shallow embedding of owrx/markers.py, the marker-database refresh engine:
  the MarkerLocation entity, the three receiver-directory scrapers
  (scrapeKiwiSDR, scrapeWebSDR, scrapeOWRX), the cache rebuild
  (updateCache), the marker file loader (loadMarkers), and the hourly
  transmitter refresh step of the background thread.

  Modelling conventions: Python dicts are insertion-ordered association
  lists with string keys and unique keys; Python floats are exact
  rationals; fallible operations return Option or Except, and an
  exception raised inside a scraper loop aborts the loop and surfaces the
  accumulator built so far, mirroring the try/except block that wraps the
  whole body of each adapter.  UTC wall-clock time is seconds since the
  epoch.
-/

set_option autoImplicit false

/-- JSON-ish attribute values occurring in marker records. -/
inductive Val where
  | vstr : String → Val
  | vint : Int → Val
  | vnum : Rat → Val
deriving DecidableEq

/-- A Python dict with string keys: insertion-ordered association list. -/
abbrev PyDict (α : Type) : Type := List (String × α)

/-- Lookup: d[k], returning the value at the first occurrence of k. -/
def dictGet {α : Type} : PyDict α → String → Option α
  | [], _ => none
  | kv :: rest, k => if kv.1 = k then some kv.2 else dictGet rest k

/-- Assignment d[k] = v: replace in place if the key exists, else append. -/
def dictSet {α : Type} : PyDict α → String → α → PyDict α
  | [], k, v => [(k, v)]
  | kv :: rest, k, v => if kv.1 = k then (k, v) :: rest else kv :: dictSet rest k v

/-- Deletion del d[k]: remove the first occurrence of the key. -/
def dictDel {α : Type} : PyDict α → String → PyDict α
  | [], _ => []
  | kv :: rest, k => if kv.1 = k then rest else kv :: dictDel rest k

/-- d.keys() in iteration order. -/
def dictKeys {α : Type} (d : PyDict α) : List String := d.map Prod.fst

/-- k in d. -/
def dictMem {α : Type} (d : PyDict α) (k : String) : Bool := (dictGet d k).isSome

/-- d.update(e): assign every pair of e into d, in iteration order. -/
def dictUpdate {α : Type} : PyDict α → PyDict α → PyDict α
  | d, [] => d
  | d, kv :: rest => dictUpdate (dictSet d kv.1 kv.2) rest

/-- Delete a list of keys one after the other. -/
def dictDelAll {α : Type} : PyDict α → List String → PyDict α
  | d, [] => d
  | d, k :: rest => dictDelAll (dictDel d k) rest

/-- Left-biased choice on Option, as produced by overwriting updates. -/
def optOr {α : Type} : Option α → Option α → Option α
  | some v, _ => some v
  | none, o => o

/-- d[k] raising KeyError when the key is absent. -/
def getE (d : PyDict Val) (k : String) : Except Unit Val :=
  match dictGet d k with
  | some v => Except.ok v
  | none => Except.error ()

/-- d[k] on a string-valued dict, raising KeyError when absent. -/
def getES (d : PyDict String) (k : String) : Except Unit String :=
  match dictGet d k with
  | some v => Except.ok v
  | none => Except.error ()

/-- A value required to be a string (str concatenation, re.sub argument). -/
def expectStr : Val → Except Unit String
  | Val.vstr s => Except.ok s
  | _ => Except.error ()

/-- Whitespace characters of the regex class \s. -/
def isWsChar (c : Char) : Bool :=
  c == ' ' || c == '\t' || c == '\n' || c == '\r' || c == '\x0b' || c == '\x0c'

/-- Numeric value of a list of decimal digits. -/
def digitsToNat (l : List Char) : Nat :=
  l.foldl (fun a c => a * 10 + (c.toNat - '0'.toNat)) 0

/-- Strip leading and trailing whitespace. -/
def stripWs (l : List Char) : List Char :=
  ((l.dropWhile isWsChar).reverse.dropWhile isWsChar).reverse

/-- Python int(s) on a string: optional surrounding whitespace, optional
sign, then decimal digits; anything else raises ValueError (modelled
without the underscore digit grouping Python also accepts). -/
def pyIntOfString (s : String) : Option Int :=
  let l := stripWs s.toList
  let p : Bool × List Char :=
    match l with
    | '-' :: rest => (true, rest)
    | '+' :: rest => (false, rest)
    | _ => (false, l)
  if p.2.isEmpty then none
  else if p.2.all Char.isDigit then
    some (if p.1 then -(digitsToNat p.2 : Int) else (digitsToNat p.2 : Int))
  else none

/-- Python int(x) on an attribute value: ints pass through, floats are
truncated toward zero, strings are parsed; otherwise ValueError. -/
def pyInt : Val → Except Unit Int
  | Val.vint n => Except.ok n
  | Val.vnum q => Except.ok (Int.tdiv q.num (q.den : Int))
  | Val.vstr s =>
    match pyIntOfString s with
    | some n => Except.ok n
    | none => Except.error ()

/-- The characters after the last occurrence of "://", if any. -/
def afterLastScheme : List Char → Option (List Char)
  | [] => none
  | ':' :: '/' :: '/' :: rest =>
    (match afterLastScheme rest with
     | some r => some r
     | none => some rest)
  | _ :: rest => afterLastScheme rest

/-- Hostname extraction used identically by all three scrapers:
re.sub with pattern caret .* colon slash slash, then a lazy group, then
an optional slash-path group, replaced by the lazy group.  For inputs
without newline characters this keeps exactly the text between the last
"://" and the following "/" (the whole remainder when no "/" follows),
and returns the input unchanged when "://" does not occur. -/
def hostFromUrl (s : String) : String :=
  match afterLastScheme s.toList with
  | none => s
  | some r => String.mk (r.takeWhile (fun c => c != '/'))

/-- Parse -?\d+\.\d+ at the head of the character list, returning the
exact rational value and the rest of the input. -/
def parseDecimal (l : List Char) : Option (Rat × List Char) :=
  let p : Bool × List Char :=
    match l with
    | '-' :: rest => (true, rest)
    | _ => (false, l)
  let ip := p.2.takeWhile Char.isDigit
  let l2 := p.2.dropWhile Char.isDigit
  if ip.isEmpty then none
  else
    match l2 with
    | '.' :: l3 =>
      let fp := l3.takeWhile Char.isDigit
      let l4 := l3.dropWhile Char.isDigit
      if fp.isEmpty then none
      else
        let mag : Rat := (digitsToNat ip : Rat) + (digitsToNat fp : Rat) / ((10 : Rat) ^ fp.length)
        some (if p.1 then -mag else mag, l4)
    | _ => none

/-- The GPS coordinate pattern of scrapeKiwiSDR: an anchored match of
open paren, \s*, a decimal pair separated by a comma with optional
whitespace, close paren; trailing text is ignored, as with re.match. -/
def parseGps (s : String) : Option (Rat × Rat) :=
  match s.toList with
  | '(' :: r0 =>
    (match parseDecimal (r0.dropWhile isWsChar) with
     | none => none
     | some (la, r2) =>
       match r2.dropWhile isWsChar with
       | ',' :: r4 =>
         (match parseDecimal (r4.dropWhile isWsChar) with
          | none => none
          | some (lo, r6) =>
            match r6.dropWhile isWsChar with
            | ')' :: _ => some (la, lo)
            | _ => none)
       | _ => none)
  | _ => none

/-- Marker attribute mappings. -/
abbrev Attrs : Type := PyDict Val

/-- The MarkerLocation entity: an attribute mapping. -/
structure MarkerLocation where
  attrs : Attrs
deriving DecidableEq

/-- The MarkerLocation constructor: stores the attribute mapping and
unconditionally sets its "type" key to "latlon". -/
def MarkerLocation.init (a : Attrs) : MarkerLocation :=
  { attrs := dictSet a "type" (Val.vstr "latlon") }

/-- getId: the "id" attribute. -/
def MarkerLocation.getId (m : MarkerLocation) : Option Val :=
  dictGet m.attrs "id"

/-- getMode: the "mode" attribute. -/
def MarkerLocation.getMode (m : MarkerLocation) : Option Val :=
  dictGet m.attrs "mode"

/-- toJSON: serialization back to the attribute mapping. -/
def MarkerLocation.toJSON (m : MarkerLocation) : Attrs := m.attrs

/-- Mappings of id to MarkerLocation. -/
abbrev MarkerDict : Type := PyDict MarkerLocation

/-
  scrapeWebSDR: the list-style directory.  The fetch, the comment-line
  stripping and the JSON decode happen before the entry loop; their
  failure is the Except.error case and yields the initial empty result.
  Each decoded entry is a JSON object.  An exception raised while one
  entry is being turned into a MarkerLocation is caught by the except
  block around the whole loop, so the loop stops and the result built so
  far is returned.
-/

/-- The membership guard: "lat" in entry and "lon" in entry and "url" in entry. -/
def webSDRGuard (e : PyDict Val) : Bool :=
  (dictGet e "lat").isSome && (dictGet e "lon").isSome && (dictGet e "url").isSome

/-- Build one WebSDR MarkerLocation, in the evaluation order of the
attribute literal: id from the url (which must be a string for re.sub),
then desc, then int(users); a missing key or a bad count raises. -/
def webSDRRecord (e : PyDict Val) : Except Unit (String × MarkerLocation) :=
  match dictGet e "lat", dictGet e "lon", dictGet e "url" with
  | some lat, some lon, some urlv =>
    (match urlv with
     | Val.vstr ustr =>
       (match dictGet e "desc" with
        | some desc =>
          (match dictGet e "users" with
           | some usersv =>
             (match pyInt usersv with
              | Except.ok un =>
                Except.ok (hostFromUrl ustr, MarkerLocation.init
                  [("type", Val.vstr "latlon"),
                   ("mode", Val.vstr "WebSDR"),
                   ("id", Val.vstr (hostFromUrl ustr)),
                   ("lat", lat),
                   ("lon", lon),
                   ("comment", desc),
                   ("url", urlv),
                   ("users", Val.vint un),
                   ("device", Val.vstr "WebSDR")])
              | Except.error _ => Except.error ())
           | none => Except.error ())
        | none => Except.error ())
     | _ => Except.error ())
  | _, _, _ => Except.error ()

/-- The entry loop of scrapeWebSDR.  A guard failure skips the entry; a
record failure aborts the loop with the accumulated result. -/
def webSDRLoop : List (PyDict Val) → MarkerDict → MarkerDict
  | [], acc => acc
  | e :: rest, acc =>
    if webSDRGuard e then
      match webSDRRecord e with
      | Except.ok kv => webSDRLoop rest (dictSet acc kv.1 kv.2)
      | Except.error _ => acc
    else webSDRLoop rest acc

/-- scrapeWebSDR as a function of the fetched and decoded response. -/
def scrapeWebSDR (fetched : Except Unit (List (PyDict Val))) : MarkerDict :=
  match fetched with
  | Except.error _ => []
  | Except.ok entries => webSDRLoop entries []

/-
  scrapeKiwiSDR: the comment/anchor directory.  readlines happens before
  the loop, so a transport failure is the Except.error case.  Each line
  either matches the anchor pattern (a URL), matches the comment pattern
  key=value, or matches neither.
-/

/-- One line of the KiwiSDR directory page, as classified by the two
line patterns of the scraper. -/
inductive KiwiLine where
  | urlLine : String → KiwiLine
  | attrLine : String → String → KiwiLine
  | plain : KiwiLine
deriving DecidableEq

/-- Build one KiwiSDR MarkerLocation from the accumulated entry, in the
evaluation order of the attribute literal: id from the url, comment from
name, int(users), int(users_max), loc, int(asl), antenna, and the
device string with each "_v" replaced by a space; a missing attribute
or a bad count raises. -/
def kiwiRecord (st : PyDict String) (la lo : Rat) : Except Unit (String × MarkerLocation) :=
  match getES st "url" with
  | Except.error _ => Except.error ()
  | Except.ok url =>
    match getES st "name" with
    | Except.error _ => Except.error ()
    | Except.ok name =>
      match getES st "users" with
      | Except.error _ => Except.error ()
      | Except.ok users =>
        match pyIntOfString users with
        | none => Except.error ()
        | some usersN =>
          match getES st "users_max" with
          | Except.error _ => Except.error ()
          | Except.ok usersMax =>
            match pyIntOfString usersMax with
            | none => Except.error ()
            | some usersMaxN =>
              match getES st "loc" with
              | Except.error _ => Except.error ()
              | Except.ok loc =>
                match getES st "asl" with
                | Except.error _ => Except.error ()
                | Except.ok asl =>
                  match pyIntOfString asl with
                  | none => Except.error ()
                  | some aslN =>
                    match getES st "antenna" with
                    | Except.error _ => Except.error ()
                    | Except.ok antenna =>
                      match getES st "sw_version" with
                      | Except.error _ => Except.error ()
                      | Except.ok sw =>
                        Except.ok (hostFromUrl url, MarkerLocation.init
                          [("type", Val.vstr "latlon"),
                           ("mode", Val.vstr "KiwiSDR"),
                           ("id", Val.vstr (hostFromUrl url)),
                           ("lat", Val.vnum la),
                           ("lon", Val.vnum lo),
                           ("comment", Val.vstr name),
                           ("url", Val.vstr url),
                           ("users", Val.vint usersN),
                           ("maxusers", Val.vint usersMaxN),
                           ("loc", Val.vstr loc),
                           ("altitude", Val.vint aslN),
                           ("antenna", Val.vstr antenna),
                           ("device", Val.vstr (sw.replace "_v" " "))])

/-- The line loop of scrapeKiwiSDR.  A comment line stores a lowercased
attribute in the pending entry; an anchor line stores the url, emits a
record when the entry has a gps attribute matching the coordinate
pattern, and resets the entry; an exception while emitting aborts the
loop with the accumulated result. -/
def kiwiLoop : List KiwiLine → PyDict String → MarkerDict → MarkerDict
  | [], _, acc => acc
  | KiwiLine.plain :: rest, st, acc => kiwiLoop rest st acc
  | KiwiLine.attrLine k v :: rest, st, acc => kiwiLoop rest (dictSet st k.toLower v) acc
  | KiwiLine.urlLine u :: rest, st, acc =>
    match dictGet (dictSet st "url" u) "gps" with
    | none => kiwiLoop rest [] acc
    | some g =>
      match parseGps g with
      | none => kiwiLoop rest [] acc
      | some (la, lo) =>
        match kiwiRecord (dictSet st "url" u) la lo with
        | Except.ok kv => kiwiLoop rest [] (dictSet acc kv.1 kv.2)
        | Except.error _ => acc

/-- scrapeKiwiSDR as a function of the fetched page lines. -/
def scrapeKiwiSDR (fetched : Except Unit (List KiwiLine)) : MarkerDict :=
  match fetched with
  | Except.error _ => []
  | Except.ok lines => kiwiLoop lines [] []

/-
  scrapeOWRX: the aggregator directory.  Scanning for the single
  "var receivers = [...];" line and JSON-decoding its array happen before
  any entity is built: a transport or decode failure is the Except.error
  case, a page without the pattern is the Except.ok none case, and both
  yield the empty result.
-/

/-- One site entry of the decoded receivers array: the coordinates array
of its location object, and its list of receiver objects. -/
structure OwrxEntry where
  coordinates : List Val
  receivers : List (PyDict Val)
deriving DecidableEq

/-- The Python float addition lon = lon + 0.0005: numbers are offset by
the exact rational 5/10000, anything else raises TypeError. -/
def pyAddOffset : Val → Except Unit Val
  | Val.vnum q => Except.ok (Val.vnum (q + 5 / 10000))
  | Val.vint n => Except.ok (Val.vnum ((n : Rat) + 5 / 10000))
  | _ => Except.error ()

/-- Build one aggregator MarkerLocation, in source order: the device
string from type (and version when present, requiring both to be
strings), then the attribute literal reading type, url, label; a missing
key raises. -/
def owrxReceiverRecord (lat lon : Val) (r : PyDict Val) : Except Unit (String × MarkerLocation) :=
  match dictGet r "type" with
  | none => Except.error ()
  | some ty =>
    match (match dictGet r "version" with
           | some ver =>
             (match ty, ver with
              | Val.vstr tys, Val.vstr vs => Except.ok (Val.vstr (tys ++ " " ++ vs))
              | _, _ => Except.error ())
           | none => Except.ok ty) with
    | Except.error _ => Except.error ()
    | Except.ok dev =>
      match dictGet r "url" with
      | none => Except.error ()
      | some urlv =>
        match urlv with
        | Val.vstr ustr =>
          (match dictGet r "label" with
           | none => Except.error ()
           | some lbl =>
             Except.ok (hostFromUrl ustr, MarkerLocation.init
               [("type", Val.vstr "latlon"),
                ("mode", ty),
                ("id", Val.vstr (hostFromUrl ustr)),
                ("lat", lat),
                ("lon", lon),
                ("comment", lbl),
                ("url", urlv),
                ("device", dev)]))
        | _ => Except.error ()

/-- The receiver loop of one site entry: each receiver is emitted and
then the running longitude is offset; a failure aborts carrying the
result built so far (including, for the offset step, the receiver just
emitted). -/
def owrxReceiversLoop (lat : Val) : Val → List (PyDict Val) → MarkerDict → Except MarkerDict MarkerDict
  | _, [], acc => Except.ok acc
  | lon, r :: rest, acc =>
    match owrxReceiverRecord lat lon r with
    | Except.error _ => Except.error acc
    | Except.ok kv =>
      match pyAddOffset lon with
      | Except.error _ => Except.error (dictSet acc kv.1 kv.2)
      | Except.ok lon2 => owrxReceiversLoop lat lon2 rest (dictSet acc kv.1 kv.2)

/-- The site-entry loop of scrapeOWRX: latitude is coordinates[1] and
longitude coordinates[0]; an index error or a receiver failure aborts
the whole adapter with the result built so far. -/
def owrxEntriesLoop : List OwrxEntry → MarkerDict → MarkerDict
  | [], acc => acc
  | e :: rest, acc =>
    match e.coordinates[1]?, e.coordinates[0]? with
    | some lat, some lon =>
      (match owrxReceiversLoop lat lon e.receivers acc with
       | Except.ok acc2 => owrxEntriesLoop rest acc2
       | Except.error acc2 => acc2)
    | _, _ => acc

/-- scrapeOWRX as a function of the scanned and decoded receivers array. -/
def scrapeOWRX (fetched : Except Unit (Option (List OwrxEntry))) : MarkerDict :=
  match fetched with
  | Except.error _ => []
  | Except.ok none => []
  | Except.ok (some entries) => owrxEntriesLoop entries []

/-
  Cache store and file loader.  The cache file is modelled as an optional
  serialized content plus a modification time; saveMarkers overwrites
  both (the write itself is modelled as succeeding).
-/

/-- The on-disk cache file: content (none when absent) and mtime. -/
structure CacheFile where
  content : Option (List (String × Attrs))
  mtime : Nat
deriving DecidableEq

/-- json.dump through MyJSONEncoder: every MarkerLocation serializes to
its attribute mapping via toJSON. -/
def serializeMarkers (d : MarkerDict) : List (String × Attrs) :=
  d.map (fun kv => (kv.1, kv.2.toJSON))

/-- saveMarkers: write the serialized markers, stamping the write time. -/
def saveMarkers (now : Nat) (markers : MarkerDict) : CacheFile :=
  { content := some (serializeMarkers markers), mtime := now }

/-- One record value of a decoded cache file, classified by the shape
the loader depends on: json.load yields a Python dict for a JSON object
(here an attribute mapping), and any other value does not support the
string-keyed item assignment the MarkerLocation constructor performs. -/
inductive JsonRec where
  | obj : Attrs → JsonRec
  | nonObj : JsonRec
deriving DecidableEq

/-- A decoded cache file: a JSON object mapping keys to record values
(with the unique keys of a Python dict), or any other JSON value, on
which db.keys() raises AttributeError. -/
inductive JsonDoc where
  | obj : List (String × JsonRec) → JsonDoc
  | nonObj : JsonDoc
deriving DecidableEq

/-- The record loop of loadMarkers, which runs outside the try block:
each object record is wrapped in a MarkerLocation under its key, and a
non-object record value makes the constructor raise TypeError out of
loadMarkers, discarding the partial result. -/
def loadLoop : List (String × JsonRec) → MarkerDict → Except Unit (Option MarkerDict)
  | [], result => Except.ok (some result)
  | (k, JsonRec.obj attrs) :: rest, result =>
    loadLoop rest (dictSet result k (MarkerLocation.init attrs))
  | (_, JsonRec.nonObj) :: _, _ => Except.error ()

/-- loadMarkers as a function of the read-and-decode outcome of the
file.  Only the open and json.load calls sit inside the try block, so
an exception there (input none) is caught and answered with the bare
return of None, modelled Except.ok none.  The processing of the decoded
document runs outside the try: a non-object document (AttributeError on
db.keys()) or a non-object record value (TypeError in the
MarkerLocation constructor) raises past the boundary of loadMarkers,
modelled Except.error. -/
def loadMarkers (fileData : Option JsonDoc) : Except Unit (Option MarkerDict) :=
  match fileData with
  | none => Except.ok none
  | some JsonDoc.nonObj => Except.error ()
  | some (JsonDoc.obj db) => loadLoop db []

/-- updateCache as a function of the three fetched responses and the
current cache file: scrape KiwiSDR, then WebSDR, then OpenWebRX into one
dict (later scrapes overwrite earlier ones on key collision), and save
the result over the cache file only when it is non-empty. -/
def updateCache (kf : Except Unit (List KiwiLine))
    (wf : Except Unit (List (PyDict Val)))
    (af : Except Unit (Option (List OwrxEntry)))
    (fs : CacheFile) (now : Nat) : MarkerDict × CacheFile :=
  let cache := dictUpdate (dictUpdate (dictUpdate [] (scrapeKiwiSDR kf)) (scrapeWebSDR wf)) (scrapeOWRX af)
  if cache = [] then (cache, fs) else (cache, saveMarkers now cache)

/-
  The transmitter refresh step of the hourly loop in the refresh thread:
  compute the keys of the previous mapping absent from the new schedule,
  remove each from the map and from the mapping, then update the map for
  every key of the new schedule and store it in the mapping.
-/

/-- A call issued to the map publisher. -/
inductive MapEvent where
  | removeLocation : String → MapEvent
  | updateLocation : Option Val → MarkerLocation → MapEvent
deriving DecidableEq

/-- The removal loop: for each stale key, one removeLocation call and a
deletion from the mapping. -/
def removeLoop : MarkerDict → List String → List MapEvent × MarkerDict
  | d, [] => ([], d)
  | d, k :: rest =>
    let p := removeLoop (dictDel d k) rest
    (MapEvent.removeLocation k :: p.1, p.2)

/-- The update loop: for each key of the new schedule, one
updateLocation call with the id of the looked-up record, and an
assignment into the mapping. -/
def updateLoop (tx : MarkerDict) : List String → MarkerDict → List MapEvent × MarkerDict
  | [], d => ([], d)
  | k :: rest, d =>
    match dictGet tx k with
    | some r =>
      let p := updateLoop tx rest (dictSet d k r)
      (MapEvent.updateLocation r.getId r :: p.1, p.2)
    | none => updateLoop tx rest d

/-- One transmitter refresh step: the old in-memory mapping and the new
schedule mapping produce the ordered list of map publisher calls and the
replacement in-memory mapping. -/
def refreshTransmitters (old tx : MarkerDict) : List MapEvent × MarkerDict :=
  let notx := (dictKeys old).filter (fun x => ! dictMem tx x)
  let rem := removeLoop old notx
  let upd := updateLoop tx (dictKeys tx) rem.2
  (rem.1 ++ upd.1, upd.2)

/-
  The wait at the head of the hourly loop:
  self.event.wait((60 - datetime.utcnow().minute) * 60).
-/

/-- The minute component of a UTC time given in seconds. -/
def minuteOf (t : Nat) : Nat := (t / 60) % 60

/-- The second component of a UTC time given in seconds. -/
def secondOf (t : Nat) : Nat := t % 60

/-- The computed wait duration, in seconds. -/
def waitSeconds (t : Nat) : Nat := (60 - minuteOf t) * 60


/-
  Association-list lemmas about the Python dict model.
-/

theorem dictGet_set_self {α : Type} (d : PyDict α) (k : String) (v : α) :
    dictGet (dictSet d k v) k = some v := by
  induction d with
  | nil => simp [dictGet, dictSet]
  | cons kv rest ih =>
    by_cases h : kv.1 = k
    · simp only [dictSet, if_pos h]
      simp [dictGet]
    · simp only [dictSet, if_neg h]
      simp [dictGet, h, ih]

theorem dictGet_set_ne {α : Type} (d : PyDict α) {k k2 : String} (v : α) (h : k2 ≠ k) :
    dictGet (dictSet d k v) k2 = dictGet d k2 := by
  induction d with
  | nil => simp [dictGet, dictSet, Ne.symm h]
  | cons kv rest ih =>
    by_cases hk : kv.1 = k
    · subst hk
      simp only [dictSet, if_pos rfl]
      simp [dictGet, Ne.symm h]
    · simp only [dictSet, if_neg hk]
      by_cases hk2 : kv.1 = k2
      · simp [dictGet, hk2]
      · simp [dictGet, hk2, ih]

theorem dictGet_eq_none_iff {α : Type} (d : PyDict α) (k : String) :
    dictGet d k = none ↔ k ∉ dictKeys d := by
  induction d with
  | nil => simp [dictGet, dictKeys]
  | cons kv rest ih =>
    by_cases h : kv.1 = k
    · simp [dictGet, dictKeys, h]
    · simp [dictGet, dictKeys, h, ih, Ne.symm h]

theorem mem_dictKeys_dictSet {α : Type} (d : PyDict α) (k k2 : String) (v : α) :
    k2 ∈ dictKeys (dictSet d k v) ↔ k2 ∈ dictKeys d ∨ k2 = k := by
  induction d with
  | nil => simp [dictKeys, dictSet]
  | cons kv rest ih =>
    by_cases h : kv.1 = k
    · subst h
      simp only [dictSet]
      simp only [if_true]
      simp only [dictKeys, List.map_cons, List.mem_cons]
      tauto
    · simp only [dictKeys] at ih
      simp only [dictSet, if_neg h, dictKeys, List.map_cons, List.mem_cons, ih]
      tauto

theorem nodup_dictKeys_dictSet {α : Type} (d : PyDict α) (k : String) (v : α)
    (h : (dictKeys d).Nodup) : (dictKeys (dictSet d k v)).Nodup := by
  induction d with
  | nil => simp [dictKeys, dictSet]
  | cons kv rest ih =>
    simp only [dictKeys, List.map_cons, List.nodup_cons] at h
    by_cases hk : kv.1 = k
    · subst hk
      simp only [dictSet]
      simp only [if_true]
      simp only [dictKeys, List.map_cons, List.nodup_cons]
      exact ⟨h.1, h.2⟩
    · simp only [dictSet, if_neg hk]
      simp only [dictKeys, List.map_cons, List.nodup_cons]
      refine ⟨?_, ih h.2⟩
      intro hmem
      rcases (mem_dictKeys_dictSet rest k kv.1 v).1 hmem with hc | hc
      · exact h.1 hc
      · exact hk hc

theorem dictGet_del_ne {α : Type} (d : PyDict α) {k k2 : String} (h : k2 ≠ k) :
    dictGet (dictDel d k) k2 = dictGet d k2 := by
  induction d with
  | nil => simp [dictGet, dictDel]
  | cons kv rest ih =>
    by_cases hk : kv.1 = k
    · subst hk
      simp only [dictDel, if_pos rfl]
      simp [dictGet, Ne.symm h]
    · simp only [dictDel, if_neg hk]
      by_cases hk2 : kv.1 = k2
      · simp [dictGet, hk2]
      · simp [dictGet, hk2, ih]

theorem dictKeys_del_sublist {α : Type} (d : PyDict α) (k : String) :
    List.Sublist (dictKeys (dictDel d k)) (dictKeys d) := by
  induction d with
  | nil => simp [dictDel, dictKeys]
  | cons kv rest ih =>
    by_cases hk : kv.1 = k
    · simp only [dictDel, if_pos hk, dictKeys, List.map_cons]
      exact List.Sublist.cons _ (List.Sublist.refl _)
    · simp only [dictDel, if_neg hk, dictKeys, List.map_cons]
      exact List.Sublist.cons₂ _ ih

theorem nodup_dictKeys_del {α : Type} (d : PyDict α) (k : String)
    (h : (dictKeys d).Nodup) : (dictKeys (dictDel d k)).Nodup :=
  List.Nodup.sublist (dictKeys_del_sublist d k) h

theorem dictGet_del_self {α : Type} (d : PyDict α) (k : String)
    (h : (dictKeys d).Nodup) : dictGet (dictDel d k) k = none := by
  induction d with
  | nil => simp [dictGet, dictDel]
  | cons kv rest ih =>
    simp only [dictKeys, List.map_cons, List.nodup_cons] at h
    by_cases hk : kv.1 = k
    · subst hk
      simp only [dictDel, if_pos rfl]
      exact (dictGet_eq_none_iff rest kv.1).2 h.1
    · simp only [dictDel, if_neg hk]
      simp [dictGet, hk, ih h.2]

theorem nodup_dictKeys_delAll {α : Type} (ks : List String) (d : PyDict α)
    (h : (dictKeys d).Nodup) : (dictKeys (dictDelAll d ks)).Nodup := by
  induction ks generalizing d with
  | nil => exact h
  | cons k rest ih => exact ih _ (nodup_dictKeys_del d k h)

theorem dictGet_delAll {α : Type} (ks : List String) (d : PyDict α) (k : String)
    (h : (dictKeys d).Nodup) :
    dictGet (dictDelAll d ks) k = if k ∈ ks then none else dictGet d k := by
  induction ks generalizing d with
  | nil => simp [dictDelAll]
  | cons k2 rest ih =>
    rw [dictDelAll, ih _ (nodup_dictKeys_del d k2 h)]
    by_cases hmem : k ∈ rest
    · simp [hmem]
    · by_cases hk : k = k2
      · subst hk
        simp [hmem, dictGet_del_self d k h]
      · simp [hmem, hk, dictGet_del_ne d hk]

theorem dictGet_update {α : Type} (e : PyDict α) (d : PyDict α) (k : String)
    (he : (dictKeys e).Nodup) :
    dictGet (dictUpdate d e) k = optOr (dictGet e k) (dictGet d k) := by
  induction e generalizing d with
  | nil => simp [dictUpdate, dictGet, optOr]
  | cons kv rest ih =>
    simp only [dictKeys, List.map_cons, List.nodup_cons] at he
    rw [dictUpdate, ih _ he.2]
    by_cases h : kv.1 = k
    · subst h
      rw [(dictGet_eq_none_iff rest kv.1).2 he.1]
      simp [dictGet, dictGet_set_self, optOr]
    · rw [dictGet_set_ne d kv.2 (Ne.symm h)]
      simp [dictGet, h]

theorem dictSet_of_not_mem {α : Type} (d : PyDict α) (k : String) (v : α)
    (h : k ∉ dictKeys d) : dictSet d k v = d ++ [(k, v)] := by
  induction d with
  | nil => simp [dictSet]
  | cons kv rest ih =>
    simp only [dictKeys, List.map_cons, List.mem_cons] at h
    push_neg at h
    simp only [dictSet, if_neg (Ne.symm h.1)]
    rw [ih h.2]
    rfl

theorem dictUpdate_append {α : Type} (e : PyDict α) (d : PyDict α)
    (hdisj : ∀ k ∈ dictKeys e, k ∉ dictKeys d) (he : (dictKeys e).Nodup) :
    dictUpdate d e = d ++ e := by
  induction e generalizing d with
  | nil => simp [dictUpdate]
  | cons kv rest ih =>
    simp only [dictKeys, List.map_cons, List.nodup_cons] at he
    simp only [dictKeys, List.map_cons, List.mem_cons] at hdisj
    rw [dictUpdate, dictSet_of_not_mem d kv.1 kv.2 (hdisj kv.1 (Or.inl rfl))]
    rw [ih (d ++ [(kv.1, kv.2)]) ?_ he.2]
    · simp
    · intro k2 hk2
      simp only [dictKeys, List.map_append, List.mem_append]
      rintro (hc | hc)
      · exact hdisj k2 (Or.inr hk2) hc
      · simp only [List.map_cons, List.map_nil, List.mem_singleton] at hc
        subst hc
        exact he.1 hk2

theorem dictUpdate_nil_left {α : Type} (e : PyDict α) (he : (dictKeys e).Nodup) :
    dictUpdate [] e = e := by
  rw [dictUpdate_append e [] (by simp [dictKeys]) he]
  simp

theorem dictSet_eq_self_iff {α : Type} (d : PyDict α) (k : String) (v : α) :
    dictSet d k v = d ↔ dictGet d k = some v := by
  induction d with
  | nil =>
    constructor
    · intro hh
      exact absurd hh (by simp [dictSet])
    · intro hh
      exact absurd hh (by simp [dictGet])
  | cons kv rest ih =>
    obtain ⟨k1, v1⟩ := kv
    by_cases h : k1 = k
    · subst h
      simp [dictSet, dictGet, eq_comm]
    · simp [dictSet, dictGet, h, ih]


/-
  Scraper loop equations: one lemma per control path of each loop body.
-/

theorem webSDRLoop_cons_skip (e : PyDict Val) (rest : List (PyDict Val)) (acc : MarkerDict)
    (hg : webSDRGuard e = false) :
    webSDRLoop (e :: rest) acc = webSDRLoop rest acc := by
  simp [webSDRLoop, hg]

theorem webSDRLoop_cons_emit (e : PyDict Val) (rest : List (PyDict Val)) (acc : MarkerDict)
    (kv : String × MarkerLocation) (hg : webSDRGuard e = true)
    (hr : webSDRRecord e = Except.ok kv) :
    webSDRLoop (e :: rest) acc = webSDRLoop rest (dictSet acc kv.1 kv.2) := by
  simp [webSDRLoop, hg, hr]

theorem webSDRLoop_cons_abort (e : PyDict Val) (rest : List (PyDict Val)) (acc : MarkerDict)
    (hg : webSDRGuard e = true) (hr : webSDRRecord e = Except.error ()) :
    webSDRLoop (e :: rest) acc = acc := by
  simp [webSDRLoop, hg, hr]

theorem kiwiLoop_skip_noGps (st : PyDict String) (u : String) (rest : List KiwiLine)
    (acc : MarkerDict) (h : dictGet (dictSet st "url" u) "gps" = none) :
    kiwiLoop (KiwiLine.urlLine u :: rest) st acc = kiwiLoop rest [] acc := by
  simp [kiwiLoop, h]

theorem kiwiLoop_skip_badGps (st : PyDict String) (u g : String) (rest : List KiwiLine)
    (acc : MarkerDict) (h1 : dictGet (dictSet st "url" u) "gps" = some g)
    (h2 : parseGps g = none) :
    kiwiLoop (KiwiLine.urlLine u :: rest) st acc = kiwiLoop rest [] acc := by
  simp [kiwiLoop, h1, h2]

theorem kiwiLoop_emit (st : PyDict String) (u g : String) (la lo : Rat)
    (kv : String × MarkerLocation) (rest : List KiwiLine) (acc : MarkerDict)
    (h1 : dictGet (dictSet st "url" u) "gps" = some g)
    (h2 : parseGps g = some (la, lo))
    (h3 : kiwiRecord (dictSet st "url" u) la lo = Except.ok kv) :
    kiwiLoop (KiwiLine.urlLine u :: rest) st acc = kiwiLoop rest [] (dictSet acc kv.1 kv.2) := by
  simp [kiwiLoop, h1, h2, h3]

theorem kiwiLoop_abort (st : PyDict String) (u g : String) (la lo : Rat)
    (rest : List KiwiLine) (acc : MarkerDict)
    (h1 : dictGet (dictSet st "url" u) "gps" = some g)
    (h2 : parseGps g = some (la, lo))
    (h3 : kiwiRecord (dictSet st "url" u) la lo = Except.error ()) :
    kiwiLoop (KiwiLine.urlLine u :: rest) st acc = acc := by
  simp [kiwiLoop, h1, h2, h3]

theorem owrxReceiversLoop_abort (lat lon : Val) (r : PyDict Val)
    (rest : List (PyDict Val)) (acc : MarkerDict)
    (h : owrxReceiverRecord lat lon r = Except.error ()) :
    owrxReceiversLoop lat lon (r :: rest) acc = Except.error acc := by
  simp [owrxReceiversLoop, h]

theorem owrxReceiversLoop_step (lat lon : Val) (r : PyDict Val)
    (rest : List (PyDict Val)) (acc : MarkerDict) (kv : String × MarkerLocation) (lon2 : Val)
    (hr : owrxReceiverRecord lat lon r = Except.ok kv)
    (ho : pyAddOffset lon = Except.ok lon2) :
    owrxReceiversLoop lat lon (r :: rest) acc =
      owrxReceiversLoop lat lon2 rest (dictSet acc kv.1 kv.2) := by
  simp [owrxReceiversLoop, hr, ho]

theorem owrxReceiversLoop_offsetAbort (lat lon : Val) (r : PyDict Val)
    (rest : List (PyDict Val)) (acc : MarkerDict) (kv : String × MarkerLocation)
    (hr : owrxReceiverRecord lat lon r = Except.ok kv)
    (ho : pyAddOffset lon = Except.error ()) :
    owrxReceiversLoop lat lon (r :: rest) acc = Except.error (dictSet acc kv.1 kv.2) := by
  simp [owrxReceiversLoop, hr, ho]

theorem owrxEntriesLoop_noLat (e : OwrxEntry) (rest : List OwrxEntry) (acc : MarkerDict)
    (h1 : e.coordinates[1]? = none) :
    owrxEntriesLoop (e :: rest) acc = acc := by
  simp [owrxEntriesLoop, h1]

theorem owrxEntriesLoop_noLon (e : OwrxEntry) (rest : List OwrxEntry) (acc : MarkerDict)
    (lat : Val) (h1 : e.coordinates[1]? = some lat) (h0 : e.coordinates[0]? = none) :
    owrxEntriesLoop (e :: rest) acc = acc := by
  simp [owrxEntriesLoop, h1, h0]

theorem owrxEntriesLoop_cont (e : OwrxEntry) (rest : List OwrxEntry) (acc acc2 : MarkerDict)
    (lat lon : Val) (h1 : e.coordinates[1]? = some lat) (h0 : e.coordinates[0]? = some lon)
    (hrl : owrxReceiversLoop lat lon e.receivers acc = Except.ok acc2) :
    owrxEntriesLoop (e :: rest) acc = owrxEntriesLoop rest acc2 := by
  simp [owrxEntriesLoop, h1, h0, hrl]

theorem owrxEntriesLoop_abort (e : OwrxEntry) (rest : List OwrxEntry)
    (acc acc2 : MarkerDict) (lat lon : Val)
    (h1 : e.coordinates[1]? = some lat) (h0 : e.coordinates[0]? = some lon)
    (hrl : owrxReceiversLoop lat lon e.receivers acc = Except.error acc2) :
    owrxEntriesLoop (e :: rest) acc = acc2 := by
  simp [owrxEntriesLoop, h1, h0, hrl]

/-
  Key uniqueness of every mapping a scraper produces.
-/

theorem nodup_webSDRLoop (entries : List (PyDict Val)) (acc : MarkerDict)
    (h : (dictKeys acc).Nodup) : (dictKeys (webSDRLoop entries acc)).Nodup := by
  induction entries generalizing acc with
  | nil => exact h
  | cons e rest ih =>
    by_cases hg : webSDRGuard e = true
    · cases hr : webSDRRecord e with
      | ok kv =>
        rw [webSDRLoop_cons_emit e rest acc kv hg hr]
        exact ih _ (nodup_dictKeys_dictSet acc kv.1 kv.2 h)
      | error u =>
        rw [webSDRLoop_cons_abort e rest acc hg hr]
        exact h
    · rw [webSDRLoop_cons_skip e rest acc (Bool.not_eq_true _ ▸ hg)]
      exact ih _ h

theorem nodup_scrapeWebSDR (f : Except Unit (List (PyDict Val))) :
    (dictKeys (scrapeWebSDR f)).Nodup := by
  cases f with
  | error u => simp [scrapeWebSDR, dictKeys]
  | ok entries => exact nodup_webSDRLoop entries [] (by simp [dictKeys])

theorem nodup_kiwiLoop (lines : List KiwiLine) (st : PyDict String) (acc : MarkerDict)
    (h : (dictKeys acc).Nodup) : (dictKeys (kiwiLoop lines st acc)).Nodup := by
  induction lines generalizing st acc with
  | nil => exact h
  | cons ln rest ih =>
    cases ln with
    | plain => exact ih _ _ h
    | attrLine k v => exact ih _ _ h
    | urlLine u =>
      cases hg : dictGet (dictSet st "url" u) "gps" with
      | none =>
        rw [kiwiLoop_skip_noGps st u rest acc hg]
        exact ih _ _ h
      | some g =>
        cases hp : parseGps g with
        | none =>
          rw [kiwiLoop_skip_badGps st u g rest acc hg hp]
          exact ih _ _ h
        | some p =>
          obtain ⟨la, lo⟩ := p
          cases hr : kiwiRecord (dictSet st "url" u) la lo with
          | ok kv =>
            rw [kiwiLoop_emit st u g la lo kv rest acc hg hp hr]
            exact ih _ _ (nodup_dictKeys_dictSet acc kv.1 kv.2 h)
          | error u2 =>
            rw [kiwiLoop_abort st u g la lo rest acc hg hp hr]
            exact h

theorem nodup_scrapeKiwiSDR (f : Except Unit (List KiwiLine)) :
    (dictKeys (scrapeKiwiSDR f)).Nodup := by
  cases f with
  | error u => simp [scrapeKiwiSDR, dictKeys]
  | ok lines => exact nodup_kiwiLoop lines [] [] (by simp [dictKeys])

/-- The value carried by either outcome of the receiver loop. -/
def exVal : Except MarkerDict MarkerDict → MarkerDict
  | Except.ok r => r
  | Except.error r => r

theorem nodup_owrxReceiversLoop (rs : List (PyDict Val)) (lat lon : Val) (acc : MarkerDict)
    (h : (dictKeys acc).Nodup) :
    (dictKeys (exVal (owrxReceiversLoop lat lon rs acc))).Nodup := by
  induction rs generalizing lon acc with
  | nil => exact h
  | cons r rest ih =>
    cases hrec : owrxReceiverRecord lat lon r with
    | error u =>
      rw [owrxReceiversLoop_abort lat lon r rest acc hrec]
      exact h
    | ok kv =>
      cases hoff : pyAddOffset lon with
      | error u =>
        rw [owrxReceiversLoop_offsetAbort lat lon r rest acc kv hrec hoff]
        exact nodup_dictKeys_dictSet acc kv.1 kv.2 h
      | ok lon2 =>
        rw [owrxReceiversLoop_step lat lon r rest acc kv lon2 hrec hoff]
        exact ih lon2 _ (nodup_dictKeys_dictSet acc kv.1 kv.2 h)

theorem nodup_owrxEntriesLoop (entries : List OwrxEntry) (acc : MarkerDict)
    (h : (dictKeys acc).Nodup) : (dictKeys (owrxEntriesLoop entries acc)).Nodup := by
  induction entries generalizing acc with
  | nil => exact h
  | cons e rest ih =>
    cases h1 : e.coordinates[1]? with
    | none =>
      rw [owrxEntriesLoop_noLat e rest acc h1]
      exact h
    | some lat =>
      cases h0 : e.coordinates[0]? with
      | none =>
        rw [owrxEntriesLoop_noLon e rest acc lat h1 h0]
        exact h
      | some lon =>
        have hn := nodup_owrxReceiversLoop e.receivers lat lon acc h
        cases hrl : owrxReceiversLoop lat lon e.receivers acc with
        | ok acc2 =>
          rw [owrxEntriesLoop_cont e rest acc acc2 lat lon h1 h0 hrl]
          rw [hrl] at hn
          exact ih acc2 hn
        | error acc2 =>
          rw [owrxEntriesLoop_abort e rest acc acc2 lat lon h1 h0 hrl]
          rw [hrl] at hn
          exact hn

theorem nodup_scrapeOWRX (f : Except Unit (Option (List OwrxEntry))) :
    (dictKeys (scrapeOWRX f)).Nodup := by
  cases f with
  | error u => simp [scrapeOWRX, dictKeys]
  | ok o =>
    cases o with
    | none => simp [scrapeOWRX, dictKeys]
    | some entries => exact nodup_owrxEntriesLoop entries [] (by simp [dictKeys])

/-
  Skip and abort behaviour of a failing record in the middle of a
  response.
-/

theorem webSDRLoop_skip (e : PyDict Val) (hg : webSDRGuard e = false) :
    ∀ (pre post : List (PyDict Val)) (acc : MarkerDict),
    webSDRLoop (pre ++ e :: post) acc = webSDRLoop (pre ++ post) acc := by
  intro pre
  induction pre with
  | nil =>
    intro post acc
    simp only [List.nil_append]
    exact webSDRLoop_cons_skip e post acc hg
  | cons p rest ih =>
    intro post acc
    simp only [List.cons_append]
    by_cases hp : webSDRGuard p = true
    · cases hr : webSDRRecord p with
      | ok kv =>
        rw [webSDRLoop_cons_emit p _ acc kv hp hr, webSDRLoop_cons_emit p _ acc kv hp hr]
        exact ih post _
      | error u =>
        rw [webSDRLoop_cons_abort p _ acc hp hr, webSDRLoop_cons_abort p _ acc hp hr]
    · rw [webSDRLoop_cons_skip p _ acc (Bool.not_eq_true _ ▸ hp),
          webSDRLoop_cons_skip p _ acc (Bool.not_eq_true _ ▸ hp)]
      exact ih post _

theorem webSDRLoop_abort (e : PyDict Val) (hg : webSDRGuard e = true)
    (hr : webSDRRecord e = Except.error ()) :
    ∀ (pre post : List (PyDict Val)) (acc : MarkerDict),
    webSDRLoop (pre ++ e :: post) acc = webSDRLoop (pre ++ [e]) acc := by
  intro pre
  induction pre with
  | nil =>
    intro post acc
    simp only [List.nil_append]
    rw [webSDRLoop_cons_abort e post acc hg hr, webSDRLoop_cons_abort e [] acc hg hr]
  | cons p rest ih =>
    intro post acc
    simp only [List.cons_append]
    by_cases hp : webSDRGuard p = true
    · cases hrp : webSDRRecord p with
      | ok kv =>
        rw [webSDRLoop_cons_emit p _ acc kv hp hrp, webSDRLoop_cons_emit p _ acc kv hp hrp]
        exact ih post _
      | error u =>
        rw [webSDRLoop_cons_abort p _ acc hp hrp, webSDRLoop_cons_abort p _ acc hp hrp]
    · rw [webSDRLoop_cons_skip p _ acc (Bool.not_eq_true _ ▸ hp),
          webSDRLoop_cons_skip p _ acc (Bool.not_eq_true _ ▸ hp)]
      exact ih post _

/-
  Characterization of the transmitter refresh step.
-/

theorem removeLoop_eq (ks : List String) (d : MarkerDict) :
    removeLoop d ks = (ks.map MapEvent.removeLocation, dictDelAll d ks) := by
  induction ks generalizing d with
  | nil => rfl
  | cons k rest ih =>
    simp [removeLoop, dictDelAll, ih]

theorem updateLoop_congr (ks : List String) (t1 t2 : MarkerDict)
    (h : ∀ k ∈ ks, dictGet t1 k = dictGet t2 k) :
    ∀ d, updateLoop t1 ks d = updateLoop t2 ks d := by
  induction ks with
  | nil => intro d; rfl
  | cons k rest ih =>
    intro d
    have hk := h k (List.mem_cons_self k rest)
    have htail : ∀ k2 ∈ rest, dictGet t1 k2 = dictGet t2 k2 :=
      fun k2 hk2 => h k2 (List.mem_cons_of_mem _ hk2)
    simp only [updateLoop, hk]
    cases hg : dictGet t2 k with
    | none => exact ih htail d
    | some r => simp [ih htail]

theorem updateLoop_self (tx : MarkerDict) :
    (dictKeys tx).Nodup → ∀ d, updateLoop tx (dictKeys tx) d =
      (tx.map (fun kv => MapEvent.updateLocation kv.2.getId kv.2), dictUpdate d tx) := by
  induction tx with
  | nil => intro _ d; rfl
  | cons kv rest ih =>
    intro htx d
    simp only [dictKeys, List.map_cons, List.nodup_cons] at htx
    have hhead : dictGet (kv :: rest) kv.1 = some kv.2 := by simp [dictGet]
    simp only [dictKeys, List.map_cons, updateLoop, hhead]
    have hsw : ∀ k2 ∈ List.map Prod.fst rest, dictGet (kv :: rest) k2 = dictGet rest k2 := by
      intro k2 hk2
      have hne : kv.1 ≠ k2 := fun hc => htx.1 (hc ▸ hk2)
      simp [dictGet, hne]
    rw [updateLoop_congr (List.map Prod.fst rest) (kv :: rest) rest hsw]
    have := ih htx.2 (dictSet d kv.1 kv.2)
    simp only [dictKeys] at this
    rw [this]
    simp [dictUpdate]

theorem refreshTransmitters_eq (old tx : MarkerDict) (htx : (dictKeys tx).Nodup) :
    refreshTransmitters old tx =
      (((dictKeys old).filter (fun x => ! dictMem tx x)).map MapEvent.removeLocation
        ++ tx.map (fun kv => MapEvent.updateLocation kv.2.getId kv.2),
       dictUpdate (dictDelAll old ((dictKeys old).filter (fun x => ! dictMem tx x))) tx) := by
  simp only [refreshTransmitters, removeLoop_eq, updateLoop_self tx htx]

/-
  Counting helpers over event lists.
-/

/-- Recognize a removeLocation call for a given key. -/
def isRemoveOf (k : String) : MapEvent → Bool
  | MapEvent.removeLocation k2 => decide (k2 = k)
  | _ => false

/-- Recognize an updateLocation call whose id argument is a given key. -/
def isUpdateOf (k : String) : MapEvent → Bool
  | MapEvent.updateLocation i _ => decide (i = some (Val.vstr k))
  | _ => false

theorem countP_congr_mem {A : Type} (l : List A) (p q : A → Bool)
    (h : ∀ a ∈ l, p a = q a) : l.countP p = l.countP q := by
  induction l with
  | nil => rfl
  | cons a rest ih =>
    rw [List.countP_cons, List.countP_cons, h a (List.mem_cons_self a rest),
        ih (fun a2 ha2 => h a2 (List.mem_cons_of_mem _ ha2))]

theorem countP_eq_one_of_nodup_map {A : Type} (f : A → String) (l : List A) (k : String)
    (hnd : (l.map f).Nodup) (hmem : k ∈ l.map f) :
    l.countP (fun a => decide (f a = k)) = 1 := by
  induction l with
  | nil => simp at hmem
  | cons a rest ih =>
    simp only [List.map_cons, List.nodup_cons] at hnd
    simp only [List.map_cons, List.mem_cons] at hmem
    rw [List.countP_cons]
    by_cases h : f a = k
    · have h0 : rest.countP (fun a2 => decide (f a2 = k)) = 0 := by
        rw [List.countP_eq_zero]
        intro a2 ha2
        simp only [decide_eq_true_eq]
        intro hc
        exact hnd.1 (h ▸ hc ▸ List.mem_map_of_mem f ha2)
      simp [h0, h]
    · have hmem2 : k ∈ List.map f rest := by
        rcases hmem with hc | hc
        · exact absurd hc.symm h
        · exact hc
      simp [h, ih hnd.2 hmem2]

/-
  Helpers for the cache rebuild.
-/

theorem optOr_eq_none_iff {α : Type} (o1 o2 : Option α) :
    optOr o1 o2 = none ↔ o1 = none ∧ o2 = none := by
  cases o1 <;> simp [optOr]

theorem eq_nil_of_dictGet_none {α : Type} (d : PyDict α)
    (h : ∀ k, dictGet d k = none) : d = [] := by
  cases d with
  | nil => rfl
  | cons kv rest =>
    have h2 := h kv.1
    simp [dictGet] at h2

theorem updateCache_fst (kf : Except Unit (List KiwiLine))
    (wf : Except Unit (List (PyDict Val))) (af : Except Unit (Option (List OwrxEntry)))
    (fs : CacheFile) (now : Nat) :
    (updateCache kf wf af fs now).1 =
      dictUpdate (dictUpdate (dictUpdate [] (scrapeKiwiSDR kf)) (scrapeWebSDR wf)) (scrapeOWRX af) := by
  simp only [updateCache]
  split <;> rfl

theorem updateCache_snd (kf : Except Unit (List KiwiLine))
    (wf : Except Unit (List (PyDict Val))) (af : Except Unit (Option (List OwrxEntry)))
    (fs : CacheFile) (now : Nat) :
    (updateCache kf wf af fs now).2 =
      if dictUpdate (dictUpdate (dictUpdate [] (scrapeKiwiSDR kf)) (scrapeWebSDR wf)) (scrapeOWRX af) = []
      then fs
      else saveMarkers now
        (dictUpdate (dictUpdate (dictUpdate [] (scrapeKiwiSDR kf)) (scrapeWebSDR wf)) (scrapeOWRX af)) := by
  simp only [updateCache]
  split <;> rfl

theorem countP_eq_one_of_nodup (l : List String) (k : String)
    (hnd : l.Nodup) (hmem : k ∈ l) : l.countP (fun a => decide (a = k)) = 1 := by
  have := countP_eq_one_of_nodup_map id l k (by simpa using hnd) (by simpa using hmem)
  simpa using this

/-
  Helpers for the marker file loader.
-/

theorem loadLoop_ne_ok_none (db : List (String × JsonRec)) (acc : MarkerDict) :
    loadLoop db acc ≠ Except.ok none := by
  induction db generalizing acc with
  | nil =>
    intro h
    simp [loadLoop] at h
  | cons kv rest ih =>
    obtain ⟨k, v⟩ := kv
    cases v with
    | obj attrs => exact ih _
    | nonObj =>
      intro h
      simp [loadLoop] at h

theorem loadLoop_error_iff (db : List (String × JsonRec)) (acc : MarkerDict) :
    loadLoop db acc = Except.error () ↔ ∃ kv ∈ db, kv.2 = JsonRec.nonObj := by
  induction db generalizing acc with
  | nil =>
    constructor
    · intro h
      simp [loadLoop] at h
    · rintro ⟨kv, hkv, _⟩
      simp at hkv
  | cons kv rest ih =>
    obtain ⟨k, v⟩ := kv
    cases v with
    | obj attrs =>
      rw [show loadLoop ((k, JsonRec.obj attrs) :: rest) acc
            = loadLoop rest (dictSet acc k (MarkerLocation.init attrs)) from rfl, ih]
      constructor
      · rintro ⟨kv2, hkv2, hv2⟩
        exact ⟨kv2, List.mem_cons_of_mem _ hkv2, hv2⟩
      · rintro ⟨kv2, hkv2, hv2⟩
        rcases List.mem_cons.1 hkv2 with hc | hc
        · subst hc
          simp at hv2
        · exact ⟨kv2, hc, hv2⟩
    | nonObj =>
      constructor
      · intro _
        exact ⟨(k, JsonRec.nonObj), List.mem_cons_self _ _, rfl⟩
      · intro _
        rfl

theorem loadLoop_allObj (db : List (String × Attrs)) (acc : MarkerDict)
    (hnd : (dictKeys acc ++ db.map Prod.fst).Nodup) :
    loadLoop (db.map (fun kv2 => (kv2.1, JsonRec.obj kv2.2))) acc =
      Except.ok (some (acc ++ db.map (fun kv2 => (kv2.1, MarkerLocation.init kv2.2)))) := by
  induction db generalizing acc with
  | nil => simp [loadLoop]
  | cons kv rest ih =>
    have hdisj := List.disjoint_of_nodup_append hnd
    have hk1 : kv.1 ∉ dictKeys acc := fun hc => hdisj hc (List.mem_cons_self _ _)
    have hstep : dictSet acc kv.1 (MarkerLocation.init kv.2) =
        acc ++ [(kv.1, MarkerLocation.init kv.2)] :=
      dictSet_of_not_mem acc kv.1 _ hk1
    have hnd2 : (dictKeys (acc ++ [(kv.1, MarkerLocation.init kv.2)]) ++ rest.map Prod.fst).Nodup := by
      simp only [dictKeys, List.map_append, List.map_cons, List.map_nil] at hnd ⊢
      simpa [List.append_assoc] using hnd
    calc loadLoop ((kv :: rest).map (fun kv2 => (kv2.1, JsonRec.obj kv2.2))) acc
        = loadLoop (rest.map (fun kv2 => (kv2.1, JsonRec.obj kv2.2)))
            (acc ++ [(kv.1, MarkerLocation.init kv.2)]) := by
          simp only [List.map_cons, loadLoop, hstep]
      _ = Except.ok (some ((acc ++ [(kv.1, MarkerLocation.init kv.2)])
            ++ rest.map (fun kv2 => (kv2.1, MarkerLocation.init kv2.2)))) := ih _ hnd2
      _ = Except.ok (some (acc ++ (kv :: rest).map (fun kv2 => (kv2.1, MarkerLocation.init kv2.2)))) := by
          simp [List.append_assoc]

/-
  Claim theorems.
-/

/-- C10: every MarkerLocation, whatever attribute mapping it is
constructed from, has its "type" attribute equal to "latlon" after
construction; the constructor unconditionally sets this key, overwriting
any caller-supplied value. -/
theorem c10_type_always_latlon (a : Attrs) :
    dictGet (MarkerLocation.init a).attrs "type" = some (Val.vstr "latlon") :=
  dictGet_set_self a "type" (Val.vstr "latlon")

/-- C9 counterexample: starting the wait 30 seconds past the hour, the
computed wait duration does not end with both minute and second
components zero. -/
theorem c9_counterexample :
    ¬ (minuteOf (30 + waitSeconds 30) = 0 ∧ secondOf (30 + waitSeconds 30) = 0) := by
  decide

/-- C9 (amended): the wait always ends inside the first minute of the
next hour with the minute component zero, but the second component is
carried over unchanged from the start of the wait; the wait ends exactly
at the top of the hour precisely when it began on a whole-minute
boundary. -/
theorem c9_wait_first_minute (t : Nat) :
    minuteOf (t + waitSeconds t) = 0 ∧
    secondOf (t + waitSeconds t) = secondOf t ∧
    (secondOf t = 0 → (t + waitSeconds t) % 3600 = 0) ∧
    t < t + waitSeconds t := by
  simp only [minuteOf, secondOf, waitSeconds]
  omega

/-- C9 witness: the amended statement evaluated at a whole-minute start
time. -/
theorem c9_witness :
    minuteOf (7320 + waitSeconds 7320) = 0 ∧ (7320 + waitSeconds 7320) % 3600 = 0 :=
  ⟨(c9_wait_first_minute 7320).1, (c9_wait_first_minute 7320).2.2.1 (by decide)⟩

/-- C4 counterexample: the two URLs of the claim map to different ids,
because the extraction keeps the port. -/
theorem c4_counterexample :
    hostFromUrl "https://radio.example.com:8073/status" ≠
      hostFromUrl "https://radio.example.com/" := by
  decide

/-- C4 (amended): hostname extraction, the one rule shared by all the
scrapers, strips the scheme and the path of a URL but keeps the port, so
the two URLs of the claim map to the distinct ids
radio.example.com:8073 and radio.example.com. -/
theorem c4_host_extraction :
    hostFromUrl "https://radio.example.com:8073/status" = "radio.example.com:8073" ∧
    hostFromUrl "https://radio.example.com/" = "radio.example.com" ∧
    hostFromUrl "http://example.org/path" = "example.org" ∧
    ("radio.example.com:8073" : String) ≠ "radio.example.com" := by
  decide

/-- C7 counterexample: a cache file that is readable and decodes
successfully, but to a JSON value that is not an object, makes
loadMarkers raise past its own boundary instead of returning either the
distinguished no-result value or a mapping; so does an object file with
a non-object record value. -/
theorem c7_counterexample :
    loadMarkers (some JsonDoc.nonObj) = Except.error () ∧
    loadMarkers (some (JsonDoc.obj [("k", JsonRec.nonObj)])) = Except.error () ∧
    loadMarkers (some JsonDoc.nonObj) ≠ Except.ok none ∧
    loadMarkers (some (JsonDoc.obj [("k", JsonRec.nonObj)])) ≠ Except.ok (some []) :=
  ⟨rfl, rfl, fun h => Except.noConfusion h, fun h => Except.noConfusion h⟩

/-- C7 (amended): loadMarkers answers the bare return of None, never an
empty mapping, exactly when the read or JSON decode of the file fails,
and a file decoding to a JSON object all of whose record values are
objects yields the possibly empty mapping with the same keys, so those
callers can distinguish an absent or corrupt cache from an empty one;
but a file decoding to a non-object value, or to an object with a
non-object record value, raises past the boundary of loadMarkers,
because the record loop runs outside the try block. -/
theorem c7_load_outcomes :
    (∀ fd, loadMarkers fd = Except.ok none ↔ fd = none) ∧
    (∀ (db : List (String × Attrs)), (db.map Prod.fst).Nodup →
      ∃ m, loadMarkers (some (JsonDoc.obj (db.map (fun kv2 => (kv2.1, JsonRec.obj kv2.2))))) =
          Except.ok (some m) ∧ dictKeys m = db.map Prod.fst) ∧
    loadMarkers (some (JsonDoc.obj [])) = Except.ok (some []) ∧
    loadMarkers (some JsonDoc.nonObj) = Except.error () ∧
    (∀ (db : List (String × JsonRec)), loadMarkers (some (JsonDoc.obj db)) = Except.error () ↔
      ∃ kv ∈ db, kv.2 = JsonRec.nonObj) := by
  refine ⟨?_, ?_, rfl, rfl, ?_⟩
  · intro fd
    cases fd with
    | none => simp [loadMarkers]
    | some d =>
      cases d with
      | nonObj => simp [loadMarkers]
      | obj db =>
        simp only [loadMarkers]
        constructor
        · intro h
          exact absurd h (loadLoop_ne_ok_none db [])
        · intro h
          simp at h
  · intro db hnd
    refine ⟨db.map (fun kv2 => (kv2.1, MarkerLocation.init kv2.2)), ?_, ?_⟩
    · have := loadLoop_allObj db [] (by simpa [dictKeys] using hnd)
      simpa [loadMarkers] using this
    · simp [dictKeys, List.map_map]
  · intro db
    exact loadLoop_error_iff db []

/-- A well-shaped decoded cache file with one record. -/
def c7wdb : List (String × Attrs) := [("k", [("id", Val.vstr "k")])]

/-- C7 witness: the amended statement on a concrete well-shaped decoded
file. -/
theorem c7_witness :
    ∃ m, loadMarkers (some (JsonDoc.obj (c7wdb.map (fun kv2 => (kv2.1, JsonRec.obj kv2.2))))) =
        Except.ok (some m) ∧ dictKeys m = c7wdb.map Prod.fst :=
  c7_load_outcomes.2.1 c7wdb (by decide)

/-- C2: updateCache invokes all three source adapters, unions their
results with later adapters overwriting earlier ones on id collision,
writes the cache file (content and modification time) exactly when the
union is non-empty and leaves it untouched otherwise, and a rebuild in
which exactly one adapter returns results yields exactly that result as
the new cache. -/
theorem c2_updateCache_behaviour (kf : Except Unit (List KiwiLine))
    (wf : Except Unit (List (PyDict Val))) (af : Except Unit (Option (List OwrxEntry)))
    (fs : CacheFile) (now : Nat) :
    (∀ k, dictGet (updateCache kf wf af fs now).1 k =
        optOr (dictGet (scrapeOWRX af) k)
          (optOr (dictGet (scrapeWebSDR wf) k) (dictGet (scrapeKiwiSDR kf) k))) ∧
    ((updateCache kf wf af fs now).1 = [] ↔
        scrapeKiwiSDR kf = [] ∧ scrapeWebSDR wf = [] ∧ scrapeOWRX af = []) ∧
    ((updateCache kf wf af fs now).1 = [] → (updateCache kf wf af fs now).2 = fs) ∧
    ((updateCache kf wf af fs now).1 ≠ [] → (updateCache kf wf af fs now).2 =
        { content := some (serializeMarkers (updateCache kf wf af fs now).1), mtime := now }) ∧
    (scrapeWebSDR wf = [] → scrapeOWRX af = [] →
        (updateCache kf wf af fs now).1 = scrapeKiwiSDR kf) ∧
    (scrapeKiwiSDR kf = [] → scrapeOWRX af = [] →
        (updateCache kf wf af fs now).1 = scrapeWebSDR wf) ∧
    (scrapeKiwiSDR kf = [] → scrapeWebSDR wf = [] →
        (updateCache kf wf af fs now).1 = scrapeOWRX af) := by
  have hK := nodup_scrapeKiwiSDR kf
  have hW := nodup_scrapeWebSDR wf
  have hA := nodup_scrapeOWRX af
  have hget : ∀ k, dictGet (updateCache kf wf af fs now).1 k =
      optOr (dictGet (scrapeOWRX af) k)
        (optOr (dictGet (scrapeWebSDR wf) k) (dictGet (scrapeKiwiSDR kf) k)) := by
    intro k
    rw [updateCache_fst, dictGet_update _ _ k hA, dictGet_update _ _ k hW,
        dictUpdate_nil_left _ hK]
  refine ⟨hget, ?_, ?_, ?_, ?_, ?_, ?_⟩
  · constructor
    · intro hc
      have hnone : ∀ k, optOr (dictGet (scrapeOWRX af) k)
          (optOr (dictGet (scrapeWebSDR wf) k) (dictGet (scrapeKiwiSDR kf) k)) = none := by
        intro k
        rw [← hget k, hc]
        rfl
      refine ⟨eq_nil_of_dictGet_none _ (fun k => ?_),
              eq_nil_of_dictGet_none _ (fun k => ?_),
              eq_nil_of_dictGet_none _ (fun k => ?_)⟩
      · exact ((optOr_eq_none_iff _ _).1 (((optOr_eq_none_iff _ _).1 (hnone k)).2)).2
      · exact ((optOr_eq_none_iff _ _).1 (((optOr_eq_none_iff _ _).1 (hnone k)).2)).1
      · exact ((optOr_eq_none_iff _ _).1 (hnone k)).1
    · rintro ⟨h1, h2, h3⟩
      rw [updateCache_fst, h1, h2, h3]
      rfl
  · intro h
    rw [updateCache_fst] at h
    rw [updateCache_snd, if_pos h]
  · intro h
    rw [updateCache_fst] at h
    rw [updateCache_snd, if_neg h, updateCache_fst]
    rfl
  · intro h2 h3
    rw [updateCache_fst, h2, h3]
    simp only [dictUpdate]
    exact dictUpdate_nil_left _ hK
  · intro h1 h3
    rw [updateCache_fst, h1, h3]
    simp only [dictUpdate]
    exact dictUpdate_nil_left _ hW
  · intro h1 h2
    rw [updateCache_fst, h1, h2]
    simp only [dictUpdate]
    exact dictUpdate_nil_left _ hA

/-- A well-formed WebSDR entry used to exercise the cache rebuild. -/
def c2wEntry : PyDict Val :=
  [("lat", Val.vnum 1), ("lon", Val.vnum 2), ("url", Val.vstr "http://a.b"),
   ("desc", Val.vstr "sdr"), ("users", Val.vint 3)]

/-- C2 witness: a rebuild in which only the WebSDR adapter returns
results produces exactly that result as the new cache. -/
theorem c2_witness :
    (updateCache (Except.error ()) (Except.ok [c2wEntry]) (Except.error ())
        { content := some [("x", [])], mtime := 5 } 99).1 =
      scrapeWebSDR (Except.ok [c2wEntry]) :=
  (c2_updateCache_behaviour (Except.error ()) (Except.ok [c2wEntry]) (Except.error ())
      { content := some [("x", [])], mtime := 5 } 99).2.2.2.2.2.1 rfl rfl

/-- An attribute mapping whose type key is not latlon. -/
def c5badAttrs : Attrs :=
  [("id", Val.vstr "a"), ("mode", Val.vstr "m"), ("type", Val.vstr "aprs")]

/-- C5 counterexample: construction followed by serialization is not the
identity on an attribute mapping whose type key is not latlon. -/
theorem c5_counterexample : (MarkerLocation.init c5badAttrs).toJSON ≠ c5badAttrs := by
  decide

theorem serialize_load_id (db : List (String × Attrs))
    (hall : ∀ kv ∈ db, dictGet kv.2 "type" = some (Val.vstr "latlon")) :
    db.map (fun kv => (kv.1, (MarkerLocation.init kv.2).toJSON)) = db := by
  induction db with
  | nil => rfl
  | cons kv rest ih =>
    have h1 := hall kv (List.mem_cons_self kv rest)
    have h2 : (MarkerLocation.init kv.2).toJSON = kv.2 :=
      (dictSet_eq_self_iff kv.2 "type" (Val.vstr "latlon")).2 h1
    rw [List.map_cons, h2, ih (fun kv2 hkv2 => hall kv2 (List.mem_cons_of_mem _ hkv2))]

/-- C5 (amended): constructing a MarkerLocation from x and serializing
it back yields x with its type key set to latlon (appended when absent);
the round trip is the identity exactly when x already maps type to
latlon.  Loading a decoded cache file and re-serializing always
preserves the id-set, and reproduces the file verbatim when every record
already carries type latlon, as every file written by this module does. -/
theorem c5_roundtrip (x : Attrs) (db : List (String × Attrs)) :
    (MarkerLocation.init x).toJSON = dictSet x "type" (Val.vstr "latlon") ∧
    ((MarkerLocation.init x).toJSON = x ↔ dictGet x "type" = some (Val.vstr "latlon")) ∧
    ((db.map Prod.fst).Nodup →
      ∃ m, loadMarkers (some (JsonDoc.obj (db.map (fun kv2 => (kv2.1, JsonRec.obj kv2.2))))) =
          Except.ok (some m) ∧
        dictKeys (serializeMarkers m) = db.map Prod.fst ∧
        ((∀ kv ∈ db, dictGet kv.2 "type" = some (Val.vstr "latlon")) →
          serializeMarkers m = db)) := by
  refine ⟨rfl, dictSet_eq_self_iff x "type" (Val.vstr "latlon"), ?_⟩
  intro hnd
  refine ⟨db.map (fun kv2 => (kv2.1, MarkerLocation.init kv2.2)), ?_, ?_, ?_⟩
  · have := loadLoop_allObj db [] (by simpa [dictKeys] using hnd)
    simpa [loadMarkers] using this
  · simp [dictKeys, serializeMarkers, List.map_map]
  · intro hall
    simp only [serializeMarkers, List.map_map]
    exact serialize_load_id db hall

/-- A mapping already carrying type latlon. -/
def c5wAttrs : Attrs := [("type", Val.vstr "latlon"), ("id", Val.vstr "w")]

/-- C5 witness: the round trip is the identity on a mapping that already
maps type to latlon. -/
theorem c5_witness : (MarkerLocation.init c5wAttrs).toJSON = c5wAttrs :=
  ((c5_roundtrip c5wAttrs []).2.1).2 (by decide)

/-- A complete WebSDR entry. -/
def c1e1 : PyDict Val :=
  [("lat", Val.vnum 1), ("lon", Val.vnum 2), ("url", Val.vstr "http://a.b"),
   ("desc", Val.vstr "r1"), ("users", Val.vint 5)]

/-- A WebSDR entry passing the membership guard but missing desc. -/
def c1e2 : PyDict Val :=
  [("lat", Val.vnum 3), ("lon", Val.vnum 4), ("url", Val.vstr "http://c.d"),
   ("users", Val.vint 6)]

/-- The mapping produced for c1e1 alone. -/
def c1result : MarkerDict :=
  [("a.b", MarkerLocation.init
    [("type", Val.vstr "latlon"), ("mode", Val.vstr "WebSDR"), ("id", Val.vstr "a.b"),
     ("lat", Val.vnum 1), ("lon", Val.vnum 2), ("comment", Val.vstr "r1"),
     ("url", Val.vstr "http://a.b"), ("users", Val.vint 5), ("device", Val.vstr "WebSDR")])]

/-- C1 counterexample: a WebSDR response whose second record fails while
being parsed makes the adapter return the non-empty partial mapping of
the records emitted before the failure, not an empty mapping. -/
theorem c1_counterexample :
    webSDRGuard c1e2 = true ∧ webSDRRecord c1e2 = Except.error () ∧
    scrapeWebSDR (Except.ok [c1e1, c1e2]) = c1result ∧
    scrapeWebSDR (Except.ok [c1e1, c1e2]) ≠ [] :=
  ⟨by decide, rfl, by decide, by decide⟩

/-- C1 (amended): no adapter ever raises past its own boundary; a
transport or decode failure of the fetch itself yields an empty mapping
for that adapter, while a failure during the processing of an individual
record stops that adapter at the failing record and yields exactly the
records emitted before it. -/
theorem c1_adapter_error_boundary :
    (scrapeKiwiSDR (Except.error ()) = [] ∧ scrapeWebSDR (Except.error ()) = [] ∧
     scrapeOWRX (Except.error ()) = [] ∧ scrapeOWRX (Except.ok none) = []) ∧
    (∀ e pre post acc, webSDRGuard e = true → webSDRRecord e = Except.error () →
      webSDRLoop (pre ++ e :: post) acc = webSDRLoop (pre ++ [e]) acc) ∧
    (∀ st u g la lo rest acc, dictGet (dictSet st "url" u) "gps" = some g →
      parseGps g = some (la, lo) →
      kiwiRecord (dictSet st "url" u) la lo = Except.error () →
      kiwiLoop (KiwiLine.urlLine u :: rest) st acc = acc) ∧
    (∀ (e : OwrxEntry) rest acc acc2 lat lon, e.coordinates[1]? = some lat →
      e.coordinates[0]? = some lon →
      owrxReceiversLoop lat lon e.receivers acc = Except.error acc2 →
      owrxEntriesLoop (e :: rest) acc = acc2) := by
  refine ⟨⟨rfl, rfl, rfl, rfl⟩, ?_, ?_, ?_⟩
  · intro e pre post acc hg hr
    exact webSDRLoop_abort e hg hr pre post acc
  · intro st u g la lo rest acc h1 h2 h3
    exact kiwiLoop_abort st u g la lo rest acc h1 h2 h3
  · intro e rest acc acc2 lat lon h1 h0 hrl
    exact owrxEntriesLoop_abort e rest acc acc2 lat lon h1 h0 hrl

/-- C1 witness: the amended statement applied to a concrete response
with a failing middle record. -/
theorem c1_witness :
    webSDRLoop ([c1e1] ++ c1e2 :: [c1e1]) [] = webSDRLoop ([c1e1] ++ [c1e2]) [] :=
  c1_adapter_error_boundary.2.1 c1e2 [c1e1] [c1e1] [] (by decide) rfl

/-- A complete WebSDR entry keyed a.b. -/
def c6e1 : PyDict Val :=
  [("lat", Val.vnum 1), ("lon", Val.vnum 2), ("url", Val.vstr "http://a.b"),
   ("desc", Val.vstr "A"), ("users", Val.vint 1)]

/-- A WebSDR entry whose users field is not an integer. -/
def c6e2 : PyDict Val :=
  [("lat", Val.vnum 3), ("lon", Val.vnum 4), ("url", Val.vstr "http://c.d"),
   ("desc", Val.vstr "B"), ("users", Val.vstr "x")]

/-- A complete WebSDR entry keyed e.f, placed after the bad record. -/
def c6e3 : PyDict Val :=
  [("lat", Val.vnum 5), ("lon", Val.vnum 6), ("url", Val.vstr "http://e.f"),
   ("desc", Val.vstr "C"), ("users", Val.vint 2)]

/-- The location c6e3 would produce on its own. -/
def c6loc3 : MarkerLocation :=
  MarkerLocation.init
    [("type", Val.vstr "latlon"), ("mode", Val.vstr "WebSDR"), ("id", Val.vstr "e.f"),
     ("lat", Val.vnum 5), ("lon", Val.vnum 6), ("comment", Val.vstr "C"),
     ("url", Val.vstr "http://e.f"), ("users", Val.vint 2), ("device", Val.vstr "WebSDR")]

/-- The mapping produced for c6e1 alone. -/
def c6result : MarkerDict :=
  [("a.b", MarkerLocation.init
    [("type", Val.vstr "latlon"), ("mode", Val.vstr "WebSDR"), ("id", Val.vstr "a.b"),
     ("lat", Val.vnum 1), ("lon", Val.vnum 2), ("comment", Val.vstr "A"),
     ("url", Val.vstr "http://a.b"), ("users", Val.vint 1), ("device", Val.vstr "WebSDR")])]

/-- C6 counterexample: a record with a non-integer count field does not
merely skip that record; it stops the adapter, so the valid record
occurring after it is never emitted. -/
theorem c6_counterexample :
    webSDRGuard c6e3 = true ∧ webSDRRecord c6e3 = Except.ok ("e.f", c6loc3) ∧
    scrapeWebSDR (Except.ok [c6e1, c6e2, c6e3]) = c6result ∧
    dictGet (scrapeWebSDR (Except.ok [c6e1, c6e2, c6e3])) "e.f" = none :=
  ⟨by decide, rfl, by decide, by decide⟩

/-- C6 (amended): a record missing one of the guard-checked required
fields, or one whose gps attribute is absent or fails the coordinate
pattern, is skipped on its own and every other record is still
processed; but a record that passes the guard and then fails during
construction, such as one with a non-integer count field, aborts the
adapter at that record: records before it are kept, records after it
are lost, and the failure still never escapes the adapter. -/
theorem c6_record_failures :
    (∀ e pre post acc, webSDRGuard e = false →
      webSDRLoop (pre ++ e :: post) acc = webSDRLoop (pre ++ post) acc) ∧
    (∀ st u rest acc, dictGet (dictSet st "url" u) "gps" = none →
      kiwiLoop (KiwiLine.urlLine u :: rest) st acc = kiwiLoop rest [] acc) ∧
    (∀ st u g rest acc, dictGet (dictSet st "url" u) "gps" = some g → parseGps g = none →
      kiwiLoop (KiwiLine.urlLine u :: rest) st acc = kiwiLoop rest [] acc) ∧
    (∀ e pre post acc, webSDRGuard e = true → webSDRRecord e = Except.error () →
      webSDRLoop (pre ++ e :: post) acc = webSDRLoop (pre ++ [e]) acc) := by
  refine ⟨?_, ?_, ?_, ?_⟩
  · intro e pre post acc hg
    exact webSDRLoop_skip e hg pre post acc
  · intro st u rest acc h
    exact kiwiLoop_skip_noGps st u rest acc h
  · intro st u g rest acc h1 h2
    exact kiwiLoop_skip_badGps st u g rest acc h1 h2
  · intro e pre post acc hg hr
    exact webSDRLoop_abort e hg hr pre post acc

/-- A record failing the WebSDR membership guard. -/
def c6bad : PyDict Val := [("lat", Val.vnum 9)]

/-- C6 witness: a guard-failing record in the middle of a response is
skipped and the records around it are still processed. -/
theorem c6_witness :
    webSDRLoop ([c6e1] ++ c6bad :: [c6e3]) [] = webSDRLoop ([c6e1] ++ [c6e3]) [] :=
  c6_record_failures.1 c6bad [c6e1] [c6e3] [] (by decide)

/-- An aggregator receiver object carrying the fields the scraper reads. -/
def c8Receiver (t u : String) (l : Val) : PyDict Val :=
  [("type", Val.vstr t), ("url", Val.vstr u), ("label", l)]

/-- An aggregator page with one site entry: GeoJSON-style coordinates
(longitude first) and two co-located receiver objects. -/
def c8Page (latq lonq : Rat) (r1 r2 : PyDict Val) : List OwrxEntry :=
  [{ coordinates := [Val.vnum lonq, Val.vnum latq], receivers := [r1, r2] }]

/-- The MarkerLocation the scraper builds for one aggregator receiver. -/
def c8Loc (t u : String) (l : Val) (la lo : Rat) : MarkerLocation :=
  MarkerLocation.init
    [("type", Val.vstr "latlon"), ("mode", Val.vstr t),
     ("id", Val.vstr (hostFromUrl u)), ("lat", Val.vnum la), ("lon", Val.vnum lo),
     ("comment", l), ("url", Val.vstr u), ("device", Val.vstr t)]

/-- The exact aggregator page given in the specification: two co-located
receivers carrying only type and url, without label fields. -/
def c8pageNoLabel : List OwrxEntry :=
  [{ coordinates := [Val.vnum 1, Val.vnum 2],
     receivers := [[("type", Val.vstr "X"), ("url", Val.vstr "http://a.b")],
                   [("type", Val.vstr "Y"), ("url", Val.vstr "http://c.d")]] }]

/-- C8 counterexample: on the exact page of the specification, whose
receiver objects carry no label field, the adapter emits no entities at
all instead of two. -/
theorem c8_counterexample :
    scrapeOWRX (Except.ok (some c8pageNoLabel)) = [] ∧
    (scrapeOWRX (Except.ok (some c8pageNoLabel))).length ≠ 2 :=
  ⟨by decide, by decide⟩

/-- C8 (amended): on an aggregator page with one site entry holding
geographic coordinates and two co-located receivers each of which
carries the type, url and label fields the scraper reads (and distinct
hosts), the adapter emits exactly two entities with the same latitude
and with longitudes differing by exactly 0.0005 degrees: the second
receiver is offset by the fixed 5/10000 longitude increment. -/
theorem c8_colocated_offset (latq lonq : Rat) (t1 u1 t2 u2 : String) (l1 l2 : Val)
    (hne : hostFromUrl u1 ≠ hostFromUrl u2) :
    scrapeOWRX (Except.ok (some (c8Page latq lonq (c8Receiver t1 u1 l1) (c8Receiver t2 u2 l2)))) =
      [(hostFromUrl u1, c8Loc t1 u1 l1 latq lonq),
       (hostFromUrl u2, c8Loc t2 u2 l2 latq (lonq + 5 / 10000))] ∧
    (scrapeOWRX (Except.ok (some (c8Page latq lonq (c8Receiver t1 u1 l1) (c8Receiver t2 u2 l2))))).length = 2 ∧
    dictGet (c8Loc t1 u1 l1 latq lonq).attrs "lat" = some (Val.vnum latq) ∧
    dictGet (c8Loc t2 u2 l2 latq (lonq + 5 / 10000)).attrs "lat" = some (Val.vnum latq) ∧
    dictGet (c8Loc t1 u1 l1 latq lonq).attrs "lon" = some (Val.vnum lonq) ∧
    dictGet (c8Loc t2 u2 l2 latq (lonq + 5 / 10000)).attrs "lon" = some (Val.vnum (lonq + 5 / 10000)) ∧
    (lonq + 5 / 10000) - lonq = (5 / 10000 : Rat) := by
  have hrec1 : owrxReceiverRecord (Val.vnum latq) (Val.vnum lonq) (c8Receiver t1 u1 l1) =
      Except.ok (hostFromUrl u1, c8Loc t1 u1 l1 latq lonq) := by
    simp [owrxReceiverRecord, c8Receiver, dictGet, c8Loc]
  have hrec2 : owrxReceiverRecord (Val.vnum latq) (Val.vnum (lonq + 5 / 10000)) (c8Receiver t2 u2 l2) =
      Except.ok (hostFromUrl u2, c8Loc t2 u2 l2 latq (lonq + 5 / 10000)) := by
    simp [owrxReceiverRecord, c8Receiver, dictGet, c8Loc]
  have hloop : owrxReceiversLoop (Val.vnum latq) (Val.vnum lonq)
      [c8Receiver t1 u1 l1, c8Receiver t2 u2 l2] [] =
      Except.ok [(hostFromUrl u1, c8Loc t1 u1 l1 latq lonq),
                 (hostFromUrl u2, c8Loc t2 u2 l2 latq (lonq + 5 / 10000))] := by
    rw [owrxReceiversLoop_step (Val.vnum latq) (Val.vnum lonq) _ _ [] _ (Val.vnum (lonq + 5 / 10000)) hrec1 rfl]
    rw [owrxReceiversLoop_step (Val.vnum latq) (Val.vnum (lonq + 5 / 10000)) _ _ _ _
          (Val.vnum (lonq + 5 / 10000 + 5 / 10000)) hrec2 rfl]
    simp [owrxReceiversLoop, dictSet, hne]
  have hmain : scrapeOWRX (Except.ok (some (c8Page latq lonq (c8Receiver t1 u1 l1) (c8Receiver t2 u2 l2)))) =
      [(hostFromUrl u1, c8Loc t1 u1 l1 latq lonq),
       (hostFromUrl u2, c8Loc t2 u2 l2 latq (lonq + 5 / 10000))] := by
    simp only [scrapeOWRX, c8Page]
    rw [owrxEntriesLoop_cont
          { coordinates := [Val.vnum lonq, Val.vnum latq],
            receivers := [c8Receiver t1 u1 l1, c8Receiver t2 u2 l2] }
          [] [] _ (Val.vnum latq) (Val.vnum lonq) rfl rfl hloop]
    rfl
  refine ⟨hmain, ?_, ?_, ?_, ?_, ?_, ?_⟩
  · rw [hmain]
    rfl
  · simp [c8Loc, MarkerLocation.init, dictSet, dictGet]
  · simp [c8Loc, MarkerLocation.init, dictSet, dictGet]
  · simp [c8Loc, MarkerLocation.init, dictSet, dictGet]
  · simp [c8Loc, MarkerLocation.init, dictSet, dictGet]
  · ring

/-- C8 witness: the amended statement on the concrete page of the
specification with labels added. -/
theorem c8_witness :
    scrapeOWRX (Except.ok (some (c8Page 2 1 (c8Receiver "X" "http://a.b" (Val.vstr "A"))
        (c8Receiver "Y" "http://c.d" (Val.vstr "B"))))) =
      [("a.b", c8Loc "X" "http://a.b" (Val.vstr "A") 2 1),
       ("c.d", c8Loc "Y" "http://c.d" (Val.vstr "B") 2 (1 + 5 / 10000))] :=
  (c8_colocated_offset 2 1 "X" "http://a.b" "Y" "http://c.d" (Val.vstr "A") (Val.vstr "B")
      (by decide)).1

/-- C3: given the old in-memory transmitter mapping and the newly
refreshed schedule mapping, where one station id vanished and a new one
appeared, the hourly refresh step issues exactly one removeLocation for
the vanished id and exactly one updateLocation for the new id, issues
every removal before any update, and replaces the in-memory mapping by
one agreeing with the new schedule on every key. -/
theorem c3_minimal_diff (old tx : MarkerDict) (vk nk : String)
    (hold : (dictKeys old).Nodup) (htx : (dictKeys tx).Nodup)
    (hids : ∀ kv ∈ tx, MarkerLocation.getId kv.2 = some (Val.vstr kv.1))
    (hv1 : vk ∈ dictKeys old) (hv2 : dictGet tx vk = none)
    (hn1 : nk ∈ dictKeys tx) (hn2 : nk ∉ dictKeys old) :
    (refreshTransmitters old tx).1.countP (isRemoveOf vk) = 1 ∧
    (refreshTransmitters old tx).1.countP (isUpdateOf nk) = 1 ∧
    (∃ removes updates, (refreshTransmitters old tx).1 = removes ++ updates ∧
        (∀ e ∈ removes, ∃ k2, e = MapEvent.removeLocation k2) ∧
        (∀ e ∈ updates, ∃ i m, e = MapEvent.updateLocation i m)) ∧
    (∀ k, dictGet (refreshTransmitters old tx).2 k = dictGet tx k) := by
  have heq := refreshTransmitters_eq old tx htx
  rw [heq]
  have hvnotx : vk ∈ (dictKeys old).filter (fun x => ! dictMem tx x) :=
    List.mem_filter.2 ⟨hv1, by simp [dictMem, hv2]⟩
  have hnotxnd : ((dictKeys old).filter (fun x => ! dictMem tx x)).Nodup :=
    hold.filter _
  refine ⟨?_, ?_, ?_, ?_⟩
  · dsimp only
    rw [List.countP_append]
    have hz : (tx.map (fun kv => MapEvent.updateLocation kv.2.getId kv.2)).countP
        (isRemoveOf vk) = 0 := by
      rw [List.countP_eq_zero]
      intro e he
      obtain ⟨kv, hkv, rfl⟩ := List.mem_map.1 he
      simp [isRemoveOf]
    rw [hz, List.countP_map]
    have hco : (((dictKeys old).filter (fun x => ! dictMem tx x)).countP
        (isRemoveOf vk ∘ MapEvent.removeLocation)) =
        (((dictKeys old).filter (fun x => ! dictMem tx x)).countP
          (fun a => decide (a = vk))) := by
      apply countP_congr_mem
      intro a ha
      rfl
    rw [hco, countP_eq_one_of_nodup _ vk hnotxnd hvnotx]
  · dsimp only
    rw [List.countP_append]
    have hz : ((((dictKeys old).filter (fun x => ! dictMem tx x)).map
        MapEvent.removeLocation).countP (isUpdateOf nk)) = 0 := by
      rw [List.countP_eq_zero]
      intro e he
      obtain ⟨k2, hk2, rfl⟩ := List.mem_map.1 he
      simp [isUpdateOf]
    rw [hz, List.countP_map]
    have hco : tx.countP (isUpdateOf nk ∘ (fun kv => MapEvent.updateLocation kv.2.getId kv.2)) =
        tx.countP (fun kv => decide (kv.1 = nk)) := by
      apply countP_congr_mem
      intro kv hkv
      show isUpdateOf nk (MapEvent.updateLocation kv.2.getId kv.2) = decide (kv.1 = nk)
      simp only [isUpdateOf, hids kv hkv]
      exact decide_eq_decide.mpr (by simp)
    rw [hco, countP_eq_one_of_nodup_map Prod.fst tx nk htx hn1]
  · refine ⟨((dictKeys old).filter (fun x => ! dictMem tx x)).map MapEvent.removeLocation,
            tx.map (fun kv => MapEvent.updateLocation kv.2.getId kv.2), rfl, ?_, ?_⟩
    · intro e he
      obtain ⟨k2, hk2, rfl⟩ := List.mem_map.1 he
      exact ⟨k2, rfl⟩
    · intro e he
      obtain ⟨kv, hkv, rfl⟩ := List.mem_map.1 he
      exact ⟨kv.2.getId, kv.2, rfl⟩
  · intro k
    dsimp only
    rw [dictGet_update tx _ k htx]
    cases hk : dictGet tx k with
    | some v => rfl
    | none =>
      simp only [optOr]
      rw [dictGet_delAll _ old k hold]
      by_cases hm : k ∈ (dictKeys old).filter (fun x => ! dictMem tx x)
      · rw [if_pos hm]
      · rw [if_neg hm]
        rw [dictGet_eq_none_iff]
        intro hmemold
        exact hm (List.mem_filter.2 ⟨hmemold, by simp [dictMem, hk]⟩)

/-- A schedule entity whose id attribute matches its key A. -/
def c3locA : MarkerLocation :=
  MarkerLocation.init [("id", Val.vstr "A"), ("mode", Val.vstr "Stations")]

/-- A schedule entity whose id attribute matches its key B. -/
def c3locB : MarkerLocation :=
  MarkerLocation.init [("id", Val.vstr "B"), ("mode", Val.vstr "Stations")]

/-- A schedule entity whose id attribute matches its key C. -/
def c3locC : MarkerLocation :=
  MarkerLocation.init [("id", Val.vstr "C"), ("mode", Val.vstr "Stations")]

/-- The previous transmitter mapping: stations A and B. -/
def c3old : MarkerDict := [("A", c3locA), ("B", c3locB)]

/-- The new schedule mapping: station A vanished, station C appeared. -/
def c3tx : MarkerDict := [("B", c3locB), ("C", c3locC)]

/-- C3 witness: on the concrete refresh pair, exactly one remove is
issued for the vanished id A and exactly one update for the new id C. -/
theorem c3_witness :
    (refreshTransmitters c3old c3tx).1.countP (isRemoveOf "A") = 1 ∧
    (refreshTransmitters c3old c3tx).1.countP (isUpdateOf "C") = 1 :=
  ⟨(c3_minimal_diff c3old c3tx "A" "C" (by decide) (by decide) (by decide) (by decide)
      (by decide) (by decide) (by decide)).1,
   (c3_minimal_diff c3old c3tx "A" "C" (by decide) (by decide) (by decide) (by decide)
      (by decide) (by decide) (by decide)).2.1⟩
